import Mathlib

/-!
Shallow embedding of two modules of the sawtooth-core repository:

* `mktplace/mktplace_communication.py` — the `MarketPlaceCommunication`
  client (`headrequest`, `getmsg`, `postmsg`): session-cookie handling for
  the reserved `/prevalidation` path, content-type-driven decoding, and the
  translation of HTTP/transport failures into `MessageException` /
  `InvalidTransactionError`.
* `sawtooth_cli/batch.py` — the `batch list` / `batch show` command
  dispatch (`parse_batch_row`, format selection, key lookup).

Network effects are made explicit: each operation takes the held cookie and
the outcome the HTTP layer would produce for the dispatched request, and
returns the result together with the new cookie state, the cookie header it
attached to the outgoing request, and whether the network was reached.
The external codecs (`json2dict`, `cbor2dict`) are kept symbolic: the model
records which decoder was chosen and on what body.
-/

namespace Sawtooth

/-- Python truthiness of an optional string: `None` and `''` are falsy.
Used for `self._cookie` and `args.key`. -/
def pyTruthy : Option String → Bool
  | none => false
  | some s => !(s == "")

/-- Python `str.find`: lowest index at which `sub` occurs in `s`, else `-1`. -/
def pyFind (s sub : String) : Int :=
  match (List.range (s.length + 1)).find? (fun i => sub.isPrefixOf (s.drop i)) with
  | some i => (i : Int)
  | none => -1

/-- A well-formed HTTP response as seen by the client: status code,
`Content-Type` header, body, and optional `Set-Cookie` header. -/
structure HttpResponse where
  code : Nat
  contentType : Option String
  body : String
  setCookie : Option String

/-- Outcome of `opener.open(request, timeout=...)` for the dispatched
request: a successful response, a `urllib2.HTTPError` (status code plus
error body), a `urllib2.URLError`, or no response at all (the bare
`except:` arm). -/
inductive HttpOutcome where
  | success (resp : HttpResponse)
  | httpError (code : Nat) (body : String)
  | urlError (reason : String)
  | noResponse

/-- The two exception kinds the client raises: `MessageException`
(communication failure) and `sawtooth.exceptions.InvalidTransactionError`. -/
inductive CommError where
  | messageException (msg : String)
  | invalidTransactionError (msg : String)
deriving DecidableEq

instance exceptDecEq {ε α : Type} [DecidableEq ε] [DecidableEq α] :
    DecidableEq (Except ε α) := fun x y =>
  match x, y with
  | .ok a, .ok b =>
      if h : a = b then .isTrue (by rw [h])
      else .isFalse (by intro he; cases he; exact h rfl)
  | .error a, .error b =>
      if h : a = b then .isTrue (by rw [h])
      else .isFalse (by intro he; cases he; exact h rfl)
  | .ok _, .error _ => .isFalse (by intro he; cases he)
  | .error _, .ok _ => .isFalse (by intro he; cases he)

/-- A `urllib2.HTTPError` as a file-like object: its status code and the
unread remainder of its error body (`read()` consumes the stream). -/
structure HTTPErrObj where
  code : Nat
  stream : String

/-- `err.read()`: returns the unread remainder and leaves the stream empty. -/
def HTTPErrObj.read (e : HTTPErrObj) : String × HTTPErrObj :=
  (e.stream, { e with stream := "" })

/-- `_print_error_information_from_server(err)`: when the status is 400 it
reads (and thereby consumes) the error body for logging. -/
def printErrorInformationFromServer (err : HTTPErrObj) : HTTPErrObj :=
  if err.code == 400 then (err.read).2 else err

/-- The default timeout (seconds) hard-coded in `headrequest`. -/
def headrequestTimeout : Nat := 30

/-- The default timeout (seconds) hard-coded in `getmsg`. -/
def getmsgTimeout : Nat := 10

/-- The default timeout (seconds) hard-coded in `postmsg`. -/
def postmsgTimeout : Nat := 10

/-- Result of `headrequest`: either the literal sentinel string
`"Session is not enabled"` or a raw HTTP status code. -/
inductive HeadResult where
  | sessionNotEnabled
  | statusCode (code : Nat)
deriving DecidableEq

/-- State transition produced by one `headrequest` call. -/
structure HeadStep where
  result : Except CommError HeadResult
  cookie : Option String
  sentCookie : Option String
  networkCalled : Bool
deriving DecidableEq

/-- `MarketPlaceCommunication.headrequest(path)`: for the reserved
`/prevalidation` path, a held cookie is attached to the request and the
stored value cleared before dispatch; with no held cookie it returns the
sentinel without touching the network.  An `HTTPError` is not an error
here: its status code is the result.  `URLError` and a missing response
raise `MessageException`. -/
def headrequest (path : String) (cookie : Option String) (net : HttpOutcome) :
    HeadStep :=
  if path == "/prevalidation" && !(pyTruthy cookie) then
    { result := .ok .sessionNotEnabled, cookie := cookie,
      sentCookie := none, networkCalled := false }
  else
    let sent := if path == "/prevalidation" then cookie else none
    let cookie' := if path == "/prevalidation" then none else cookie
    match net with
    | .success resp =>
        { result := .ok (.statusCode resp.code), cookie := cookie',
          sentCookie := sent, networkCalled := true }
    | .httpError code _ =>
        { result := .ok (.statusCode code), cookie := cookie',
          sentCookie := sent, networkCalled := true }
    | .urlError reason =>
        { result := .error (.messageException ("operation failed: " ++ reason)),
          cookie := cookie', sentCookie := sent, networkCalled := true }
    | .noResponse =>
        { result := .error (.messageException "no response from server"),
          cookie := cookie', sentCookie := sent, networkCalled := true }

/-- Value returned by `getmsg` on success: the body handed to `json2dict`,
the body handed to `cbor2dict`, or the raw content returned unchanged. -/
inductive GetValue where
  | jsonDecoded (body : String)
  | cborDecoded (body : String)
  | raw (body : String)
deriving DecidableEq

/-- State transition produced by one `getmsg` call. -/
structure GetStep where
  result : Except CommError GetValue
  cookie : Option String
  sentCookie : Option String
  networkCalled : Bool
deriving DecidableEq

/-- `MarketPlaceCommunication.getmsg(path)`: attaches a held cookie for the
reserved path (without clearing it), dispatches the GET, raises
`MessageException` on any `HTTPError`/`URLError`/no response, and on
success decodes by `Content-Type` — JSON and CBOR are decoded, anything
else is returned as the raw content. -/
def getmsg (path : String) (cookie : Option String) (net : HttpOutcome) :
    GetStep :=
  let sent := if path == "/prevalidation" && pyTruthy cookie then cookie else none
  match net with
  | .success resp =>
      let value : GetValue :=
        if resp.contentType == some "application/json" then
          .jsonDecoded resp.body
        else if resp.contentType == some "application/cbor" then
          .cborDecoded resp.body
        else
          .raw resp.body
      { result := .ok value, cookie := cookie, sentCookie := sent,
        networkCalled := true }
  | .httpError code body =>
      let _ := printErrorInformationFromServer ⟨code, body⟩
      { result := .error (.messageException
          ("operation failed with response: " ++ toString code)),
        cookie := cookie, sentCookie := sent, networkCalled := true }
  | .urlError reason =>
      { result := .error (.messageException ("operation failed: " ++ reason)),
        cookie := cookie, sentCookie := sent, networkCalled := true }
  | .noResponse =>
      { result := .error (.messageException "no response from server"),
        cookie := cookie, sentCookie := sent, networkCalled := true }

/-- Value returned by `postmsg` on success with a recognized content-type. -/
inductive PostValue where
  | jsonDecoded (body : String)
  | cborDecoded (body : String)
deriving DecidableEq

/-- State transition produced by one `postmsg` call. -/
structure PostStep where
  result : Except CommError (Option PostValue)
  cookie : Option String
  sentCookie : Option String
deriving DecidableEq

/-- The `except urllib2.HTTPError` arm of `postmsg`: the logging helper
consumes the 400 error stream first, so the subsequent `err.read()` on a
400 yields the empty string; `err_content.find("InvalidTransactionError")`
is then used directly as a boolean, so the branch is taken exactly when
the returned index is nonzero. -/
def postmsgHttpErrorHandler (err : HTTPErrObj) : CommError :=
  let err := printErrorInformationFromServer err
  if err.code == 400 then
    let err_content := (err.read).1
    if pyFind err_content "InvalidTransactionError" != 0 then
      .invalidTransactionError ("Error from server: " ++ err_content)
    else
      .messageException ("operation failed with response: " ++ toString err.code)
  else
    .messageException ("operation failed with response: " ++ toString err.code)

/-- `MarketPlaceCommunication.postmsg(msgtype, info, path)`: attaches a held
cookie for the reserved path (without clearing it); after a successful
response to the reserved path, stores the `Set-Cookie` header only when no
cookie is currently held.  On `HTTPError` it runs
`postmsgHttpErrorHandler`; on `URLError`/no response it raises
`MessageException`.  On success it decodes JSON/CBOR by `Content-Type` and
returns `None` for anything else. -/
def postmsg (path : String) (cookie : Option String) (net : HttpOutcome) :
    PostStep :=
  let sent := if path == "/prevalidation" && pyTruthy cookie then cookie else none
  match net with
  | .success resp =>
      let cookie' :=
        if path == "/prevalidation" then
          if !(pyTruthy cookie) then resp.setCookie else cookie
        else cookie
      let value : Option PostValue :=
        if resp.contentType == some "application/json" then
          some (.jsonDecoded resp.body)
        else if resp.contentType == some "application/cbor" then
          some (.cborDecoded resp.body)
        else
          none
      { result := .ok value, cookie := cookie', sentCookie := sent }
  | .httpError code body =>
      { result := .error (postmsgHttpErrorHandler ⟨code, body⟩),
        cookie := cookie, sentCookie := sent }
  | .urlError reason =>
      { result := .error (.messageException ("operation failed: " ++ reason)),
        cookie := cookie, sentCookie := sent }
  | .noResponse =>
      { result := .error (.messageException "no response from server"),
        cookie := cookie, sentCookie := sent }

/-- A Python value as it appears in the batch records handled by the CLI:
strings, integers, lists, and dictionaries (association lists in insertion
order, first binding wins on lookup). -/
inductive PyValue where
  | str (s : String)
  | num (n : Int)
  | list (xs : List PyValue)
  | dict (entries : List (String × PyValue))

/-- Dictionary lookup `d[k]` / `k in d` on an association list. -/
def alistGet (es : List (String × PyValue)) (k : String) : Option PyValue :=
  match es.find? (fun e => e.1 == k) with
  | some e => some e.2
  | none => none

/-- `batch[k]` / `batch.get(k)` when `batch` is a dict; `none` when the key
is absent or the value is not a dict (Python would raise). -/
def dictGet (batch : PyValue) (k : String) : Option PyValue :=
  match batch with
  | .dict es => alistGet es k
  | _ => none

/-- Python `len(v)`; `none` on an integer (Python raises `TypeError`). -/
def pyLen : PyValue → Option Nat
  | .str s => some s.length
  | .list xs => some xs.length
  | .dict es => some es.length
  | .num _ => none

/-- `parse_batch_row(batch)` from `do_batch`'s list branch: the tuple
`(batch['header_signature'], len(batch.get('transactions', [])),
batch['header']['signer_pubkey'])`; `none` when Python would raise a
`KeyError`/`TypeError`. -/
def parse_batch_row (batch : PyValue) : Option (PyValue × Nat × PyValue) := do
  let hs ← dictGet batch "header_signature"
  let txns := (dictGet batch "transactions").getD (.list [])
  let n ← pyLen txns
  let hdr ← dictGet batch "header"
  let pk ← dictGet hdr "signer_pubkey"
  pure (hs, n, pk)

/-- Errors raised inside `do_batch`: the `AssertionError('Missing handler:
...')` exhaustiveness check, `CliException`, and the Python `KeyError` /
`TypeError` that uncaught dictionary access would raise. -/
inductive BatchError where
  | assertionError (msg : String)
  | cliException (msg : String)
  | keyError (key : String)
  | typeError
deriving DecidableEq

/-- The `keys` tuple of the list branch. -/
def batchListKeys : List String := ["batch_id", "txns", "signer"]

/-- `headers = tuple(k.upper() for k in keys)`. -/
def batchListHeaders : List String := batchListKeys.map (fun k => k.toUpper)

/-- One row of the json/yaml data:
`{k: d for k, d in zip(keys, parse_batch_row(b))}`. -/
def batchRowDict (b : PyValue) : Option PyValue := do
  let (hs, n, pk) ← parse_batch_row b
  pure (.dict (List.zip batchListKeys [hs, .num (Int.ofNat n), pk]))

/-- The terminal action the list branch of `do_batch` ends in: which
`format_utils` printer is invoked and with what data. -/
inductive ListAction where
  | printTerminalTable (headers : List String) (batches : List PyValue)
  | printCsv (headers : List String) (batches : List PyValue)
  | printYaml (data : List PyValue)
  | printJson (data : List PyValue)

/-- The `args.subcommand == 'list'` branch of `do_batch`, given the batches
the REST client returned and `args.format`. -/
def do_batch_list (format : String) (batches : List PyValue) :
    Except BatchError ListAction :=
  if format == "default" then
    .ok (.printTerminalTable batchListHeaders batches)
  else if format == "csv" then
    .ok (.printCsv batchListHeaders batches)
  else if format == "json" || format == "yaml" then
    match batches.mapM batchRowDict with
    | none => .error (.keyError "parse_batch_row")
    | some data =>
        if format == "yaml" then .ok (.printYaml data)
        else if format == "json" then .ok (.printJson data)
        else .error (.assertionError ("Missing handler: " ++ format))
  else
    .error (.assertionError ("Missing handler: " ++ format))

/-- Python `k in v` for the value found under `'header'`: key membership
for a dict, string-valued element membership for a list, substring test
for a string; `none` for an integer (Python raises `TypeError`). -/
def pyContains (v : PyValue) (k : String) : Option Bool :=
  match v with
  | .dict es => some (es.any (fun e => e.1 == k))
  | .list xs => some (xs.any (fun x => match x with | .str s => s == k | _ => false))
  | .str s => some (!(pyFind s k == -1))
  | .num _ => none

/-- `v[k]` with a string key: dict lookup; `TypeError` otherwise. -/
def pySubscript (v : PyValue) (k : String) : Except BatchError PyValue :=
  match v with
  | .dict es =>
      match alistGet es k with
      | some x => .ok x
      | none => .error (.keyError k)
  | _ => .error .typeError

/-- The `if args.key:` block of `do_batch`'s show branch: pick the value
printed for `batch show`.  A truthy key is looked up first among the
batch's own keys, then inside `output['header']`; if absent from both,
`CliException` is raised.  A falsy key leaves the whole batch record. -/
def resolveShowKey (key : Option String) (batch : List (String × PyValue)) :
    Except BatchError PyValue :=
  if pyTruthy key then
    let k := key.getD ""
    match alistGet batch k with
    | some v => .ok v
    | none =>
        match alistGet batch "header" with
        | none => .error (.keyError "header")
        | some hdr =>
            match pyContains hdr k with
            | none => .error .typeError
            | some true => pySubscript hdr k
            | some false =>
                .error (.cliException
                  ("key \"" ++ k ++ "\" not found in batch or header"))
  else .ok (.dict batch)

/-- The terminal action the show branch of `do_batch` ends in. -/
inductive ShowAction where
  | printYaml (v : PyValue)
  | printJson (v : PyValue)

/-- The `args.subcommand == 'show'` branch of `do_batch`, given the batch
record the REST client returned, `args.key` and `args.format`. -/
def do_batch_show (format : String) (key : Option String)
    (batch : List (String × PyValue)) : Except BatchError ShowAction := do
  let output ← resolveShowKey key batch
  if format == "yaml" then pure (.printYaml output)
  else if format == "json" then pure (.printJson output)
  else .error (.assertionError ("Missing handler: " ++ format))

/-! ## Theorems -/

/-- C1 (code bug): the claim says a POST receiving HTTP 400 whose body does
not contain `"InvalidTransactionError"` raises the generic
`MessageException`; the code instead raises `InvalidTransactionError`.
`_print_error_information_from_server` has already consumed the error
stream, so `err_content` is always the empty string, and
`''.find("InvalidTransactionError")` returns `-1`, which is truthy in the
`if`, so the `InvalidTransactionError` branch is taken for every 400
response — here evaluated at the marker-free body `"bad request"`. -/
theorem c1_post_400_without_marker_raises_invalid_transaction :
    (postmsg "" none (.httpError 400 "bad request")).result
      = .error (.invalidTransactionError "Error from server: ") := by
  decide

/-- C2 counterexample: a GET to the reserved path with a held cookie does
not clear the stored value, contradicting the claimed one-shot consumption
for getmsg. -/
theorem c2_getmsg_keeps_cookie :
    (getmsg "/prevalidation" (some "tok")
      (.success ⟨200, some "application/json", "\x7b\x7d", none⟩)).cookie
      ≠ none := by
  decide

/-- C2 amended: only `headrequest` consumes the cookie one-shot (attach and
clear); `getmsg` and `postmsg` copy a held cookie into the outgoing
request's cookie header but leave the stored value unchanged. -/
theorem c2_cookie_attach_semantics (cookie : Option String) (net : HttpOutcome)
    (h : pyTruthy cookie = true) :
    (headrequest "/prevalidation" cookie net).sentCookie = cookie ∧
    (headrequest "/prevalidation" cookie net).cookie = none ∧
    (getmsg "/prevalidation" cookie net).sentCookie = cookie ∧
    (getmsg "/prevalidation" cookie net).cookie = cookie ∧
    (postmsg "/prevalidation" cookie net).sentCookie = cookie ∧
    (postmsg "/prevalidation" cookie net).cookie = cookie := by
  cases net <;> simp [headrequest, getmsg, postmsg, h]

/-- C2 amended, witness at cookie `"tok"` and a transport failure. -/
theorem c2_cookie_attach_semantics_witness :
    pyTruthy (some "tok") = true ∧
    ((headrequest "/prevalidation" (some "tok") .noResponse).sentCookie
        = some "tok" ∧
      (headrequest "/prevalidation" (some "tok") .noResponse).cookie = none ∧
      (getmsg "/prevalidation" (some "tok") .noResponse).sentCookie
        = some "tok" ∧
      (getmsg "/prevalidation" (some "tok") .noResponse).cookie = some "tok" ∧
      (postmsg "/prevalidation" (some "tok") .noResponse).sentCookie
        = some "tok" ∧
      (postmsg "/prevalidation" (some "tok") .noResponse).cookie
        = some "tok") :=
  ⟨by decide, c2_cookie_attach_semantics (some "tok") .noResponse (by decide)⟩

/-- C3: a HEAD to the reserved path with no held cookie returns the
"Session is not enabled" sentinel, leaves the cookie store untouched,
attaches nothing, and performs no network call. -/
theorem c3_headrequest_short_circuits (cookie : Option String)
    (net : HttpOutcome) (h : pyTruthy cookie = false) :
    headrequest "/prevalidation" cookie net =
      { result := .ok .sessionNotEnabled, cookie := cookie,
        sentCookie := none, networkCalled := false } := by
  simp [headrequest, h]

/-- C3, witness at no cookie and an unreachable server. -/
theorem c3_headrequest_short_circuits_witness :
    pyTruthy none = false ∧
    headrequest "/prevalidation" none .noResponse =
      { result := .ok .sessionNotEnabled, cookie := none,
        sentCookie := none, networkCalled := false } :=
  ⟨by decide, c3_headrequest_short_circuits none .noResponse (by decide)⟩

/-- C4 counterexample: `headrequest` hard-codes a 30-second timeout while
`getmsg` and `postmsg` hard-code 10 seconds, so the HEAD timeout is not
strictly shorter than the GET/POST timeouts as claimed. -/
theorem c4_head_timeout_not_shorter :
    headrequestTimeout = 30 ∧ getmsgTimeout = 10 ∧ postmsgTimeout = 10 ∧
    ¬(headrequestTimeout < getmsgTimeout ∧
      headrequestTimeout < postmsgTimeout) := by
  decide

/-- C4 amended: the default timeout used by `headrequest` (30 s) is
strictly longer than the timeouts used by `getmsg` and `postmsg` (10 s). -/
theorem c4_head_timeout_longer :
    getmsgTimeout < headrequestTimeout ∧
    postmsgTimeout < headrequestTimeout := by
  decide

/-- C5: decoding of a successful response is chosen by content-type with
the intentional GET/POST asymmetry: `application/json` selects the JSON
decoder and `application/cbor` the CBOR decoder in both `getmsg` and
`postmsg`; any other content-type makes `getmsg` return the raw body
unchanged and `postmsg` return no value (`None`). -/
theorem c5_decode_dispatch (path : String) (cookie : Option String)
    (resp : HttpResponse) :
    (resp.contentType = some "application/json" →
      (getmsg path cookie (.success resp)).result
          = .ok (.jsonDecoded resp.body) ∧
      (postmsg path cookie (.success resp)).result
          = .ok (some (.jsonDecoded resp.body))) ∧
    (resp.contentType = some "application/cbor" →
      (getmsg path cookie (.success resp)).result
          = .ok (.cborDecoded resp.body) ∧
      (postmsg path cookie (.success resp)).result
          = .ok (some (.cborDecoded resp.body))) ∧
    (resp.contentType ≠ some "application/json" →
      resp.contentType ≠ some "application/cbor" →
      (getmsg path cookie (.success resp)).result = .ok (.raw resp.body) ∧
      (postmsg path cookie (.success resp)).result = .ok none) := by
  refine ⟨fun h => ?_, fun h => ?_, fun h1 h2 => ?_⟩
  · simp [getmsg, postmsg, h]
  · simp [getmsg, postmsg, h]
  · simp [getmsg, postmsg,
      beq_eq_false_iff_ne.mpr h1, beq_eq_false_iff_ne.mpr h2]

/-- C5, witness: a JSON response decodes via the JSON decoder in `getmsg`,
and a response with no recognized content-type makes `postmsg` return no
value. -/
theorem c5_decode_dispatch_witness :
    (getmsg "/store" none
      (.success ⟨200, some "application/json", "\x7b\x7d", none⟩)).result
        = .ok (.jsonDecoded "\x7b\x7d") ∧
    (postmsg "/store" none
      (.success ⟨200, some "text/plain", "ok", none⟩)).result = .ok none :=
  ⟨((c5_decode_dispatch "/store" none
        ⟨200, some "application/json", "\x7b\x7d", none⟩).1 rfl).1,
   ((c5_decode_dispatch "/store" none
        ⟨200, some "text/plain", "ok", none⟩).2.2
      (by decide) (by decide)).2⟩

/-- C6: whenever `headrequest` actually dispatches the request (the
reserved-path/no-cookie short circuit does not apply), a well-formed HTTP
response of any status code — delivered normally or as a
`urllib2.HTTPError` — is returned as the raw status code without raising;
only `URLError` and a missing response raise `MessageException`. -/
theorem c6_headrequest_status_is_result (path : String)
    (cookie : Option String) (code : Nat) (body : String)
    (resp : HttpResponse) (reason : String)
    (h : path = "/prevalidation" → pyTruthy cookie = true) :
    (headrequest path cookie (.httpError code body)).result
        = .ok (.statusCode code) ∧
    (headrequest path cookie (.success resp)).result
        = .ok (.statusCode resp.code) ∧
    (headrequest path cookie (.urlError reason)).result
        = .error (.messageException ("operation failed: " ++ reason)) ∧
    (headrequest path cookie .noResponse).result
        = .error (.messageException "no response from server") := by
  by_cases hp : path = "/prevalidation"
  · subst hp
    simp [headrequest, h rfl]
  · simp [headrequest, beq_eq_false_iff_ne.mpr hp]

/-- C6, witness at a non-reserved path, a 404 error response, a 500
success-path response, and both transport failures. -/
theorem c6_headrequest_status_is_result_witness :
    (headrequest "/store" none (.httpError 404 "missing")).result
        = .ok (.statusCode 404) ∧
    (headrequest "/store" none (.success ⟨500, none, "", none⟩)).result
        = .ok (.statusCode 500) ∧
    (headrequest "/store" none (.urlError "refused")).result
        = .error (.messageException ("operation failed: " ++ "refused")) ∧
    (headrequest "/store" none .noResponse).result
        = .error (.messageException "no response from server") :=
  c6_headrequest_status_is_result "/store" none 404 "missing"
    ⟨500, none, "", none⟩ "refused" (by decide)

/-- C7: cookie capture in `postmsg` is first-write-wins.  After a
successful POST to the reserved path, the `Set-Cookie` header is stored
only when no cookie is held; when one is held the capture is a no-op and
the held value is unchanged.  (The store is a single optional field, so it
never holds more than one value by construction.) -/
theorem c7_capture_first_write_wins (cookie : Option String)
    (resp : HttpResponse) :
    (pyTruthy cookie = true →
      (postmsg "/prevalidation" cookie (.success resp)).cookie = cookie) ∧
    (pyTruthy cookie = false →
      (postmsg "/prevalidation" cookie (.success resp)).cookie
        = resp.setCookie) := by
  refine ⟨fun h => ?_, fun h => ?_⟩ <;> simp [postmsg, h]

/-- C7, witness: with a held cookie the capture is a no-op; with none held
the response's `Set-Cookie` value is stored. -/
theorem c7_capture_first_write_wins_witness :
    (postmsg "/prevalidation" (some "tok")
      (.success ⟨200, none, "", some "fresh"⟩)).cookie = some "tok" ∧
    (postmsg "/prevalidation" none
      (.success ⟨200, none, "", some "fresh"⟩)).cookie = some "fresh" :=
  ⟨(c7_capture_first_write_wins (some "tok")
      ⟨200, none, "", some "fresh"⟩).1 (by decide),
   (c7_capture_first_write_wins none
      ⟨200, none, "", some "fresh"⟩).2 (by decide)⟩

/-- A dictionary whose lookup of `k` fails has no entry keyed `k`. -/
theorem alistGet_none_any_false (es : List (String × PyValue)) (k : String)
    (h : alistGet es k = none) :
    es.any (fun e => e.1 == k) = false := by
  unfold alistGet at h
  cases hf : es.find? (fun e => e.1 == k) with
  | some e => rw [hf] at h; cases h
  | none =>
      rw [List.any_eq_false]
      intro x hx
      exact List.find?_eq_none.mp hf x hx

/-- C8: `parse_batch_row` projects a batch record to the triple
`(header_signature, length of transactions, header.signer_pubkey)`. -/
theorem c8_parse_batch_row_projection (b : List (String × PyValue))
    (hs : PyValue) (txs : List PyValue) (hdr : List (String × PyValue))
    (pk : PyValue)
    (h1 : alistGet b "header_signature" = some hs)
    (h2 : alistGet b "transactions" = some (.list txs))
    (h3 : alistGet b "header" = some (.dict hdr))
    (h4 : alistGet hdr "signer_pubkey" = some pk) :
    parse_batch_row (.dict b) = some (hs, txs.length, pk) := by
  simp [parse_batch_row, dictGet, pyLen, h1, h2, h3, h4]

/-- C8, witness at the record of the claim: header signature `"abc"`, two
transactions, signer public key `"pk1"` — the row is `("abc", 2, "pk1")`. -/
theorem c8_parse_batch_row_projection_witness :
    parse_batch_row (.dict [("header_signature", .str "abc"),
      ("transactions", .list [.str "t1", .str "t2"]),
      ("header", .dict [("signer_pubkey", .str "pk1")])])
      = some (.str "abc", 2, .str "pk1") :=
  c8_parse_batch_row_projection _ _ [.str "t1", .str "t2"] _ _
    rfl rfl rfl rfl

/-- C9: an output-format selector outside the enumerated variants
(`default`, `csv`, `json`, `yaml` for list; `yaml`, `json` for show)
makes `do_batch` raise `AssertionError("Missing handler: ...")` — for the
show branch, provided the key lookup itself succeeded so that the format
dispatch is reached. -/
theorem c9_missing_handler (format : String) (batches : List PyValue)
    (key : Option String) (batch : List (String × PyValue)) (v : PyValue)
    (h1 : format ≠ "default") (h2 : format ≠ "csv")
    (h3 : format ≠ "json") (h4 : format ≠ "yaml")
    (h5 : resolveShowKey key batch = .ok v) :
    do_batch_list format batches
        = .error (.assertionError ("Missing handler: " ++ format)) ∧
    do_batch_show format key batch
        = .error (.assertionError ("Missing handler: " ++ format)) := by
  constructor
  · simp [do_batch_list, beq_eq_false_iff_ne.mpr h1,
      beq_eq_false_iff_ne.mpr h2, beq_eq_false_iff_ne.mpr h3,
      beq_eq_false_iff_ne.mpr h4]
  · simp [do_batch_show, h5, beq_eq_false_iff_ne.mpr h3,
      beq_eq_false_iff_ne.mpr h4]
    rfl

/-- C9, witness at the unrecognized selector `"xml"`. -/
theorem c9_missing_handler_witness :
    do_batch_list "xml" []
        = .error (.assertionError ("Missing handler: " ++ "xml")) ∧
    do_batch_show "xml" none []
        = .error (.assertionError ("Missing handler: " ++ "xml")) :=
  c9_missing_handler "xml" [] none [] (.dict [])
    (by decide) (by decide) (by decide) (by decide) rfl

/-- C10: in `batch show` with a truthy key, a key present both at the top
level of the batch record and inside its `header` mapping resolves to the
top-level value (top-level lookup takes precedence); only when the key is
absent from both is `CliException` raised. -/
theorem c10_show_key_top_level_precedence (k : String) (v w : PyValue)
    (batch hdr : List (String × PyValue))
    (hk : (k == "") = false)
    (hhdr : alistGet batch "header" = some (.dict hdr)) :
    (alistGet batch k = some v → alistGet hdr k = some w →
      do_batch_show "yaml" (some k) batch = .ok (.printYaml v)) ∧
    (alistGet batch k = none → alistGet hdr k = none →
      do_batch_show "yaml" (some k) batch
        = .error (.cliException
            ("key \"" ++ k ++ "\" not found in batch or header"))) := by
  constructor
  · intro htop _
    simp [do_batch_show, resolveShowKey, pyTruthy, hk, htop, Except.bind]
  · intro htop hhdrk
    simp [do_batch_show, resolveShowKey, pyTruthy, hk, htop, hhdr,
      pyContains, alistGet_none_any_false hdr k hhdrk, Except.bind]

/-- C10, witness: key `"k"` present both at top level (value `"top"`) and
in the header (value `"hdr"`) resolves to the top-level value; key `"z"`
absent from both raises `CliException`. -/
theorem c10_show_key_top_level_precedence_witness :
    do_batch_show "yaml" (some "k")
        [("k", .str "top"), ("header", .dict [("k", .str "hdr")])]
      = .ok (.printYaml (.str "top")) ∧
    do_batch_show "yaml" (some "z")
        [("k", .str "top"), ("header", .dict [("k", .str "hdr")])]
      = .error (.cliException
          ("key \"" ++ "z" ++ "\" not found in batch or header")) :=
  ⟨(c10_show_key_top_level_precedence "k" (.str "top") (.str "hdr")
      [("k", .str "top"), ("header", .dict [("k", .str "hdr")])]
      [("k", .str "hdr")] rfl rfl).1 rfl rfl,
   (c10_show_key_top_level_precedence "z" (.str "top") (.str "hdr")
      [("k", .str "top"), ("header", .dict [("k", .str "hdr")])]
      [("k", .str "hdr")] rfl rfl).2 rfl rfl⟩

end Sawtooth
